import Mathlib

/-!
Verification of the real-time proctoring pipeline of the AI-Interview-Platform
repository, as a shallow embedding in Lean 4.

The embedding covers:
- the proctoring Evaluator `handleFaceResults` of `components/Agent.tsx`
  (rate limiting, face-count / head-turn / gaze / posture rules);
- the FINISHED-state cleanup and feedback-finalization effect of the same file;
- the call-start coordinator `handleCall`;
- the alternative `useAntiCheat` hook variant (`analyzeFrame`) and its
  `AntiCheatOverlay` rendering.

Numeric landmark coordinates and timestamps are modelled as rationals; a
JavaScript property access on a possibly-`undefined` array element is
modelled in the `Except Unit` monad (accessing `.x` of `undefined` throws).
-/

set_option autoImplicit false

namespace Proctoring

/-- Mirror of JavaScript `Math.abs` on the rational coordinates. -/
def mathAbs (q : ℚ) : ℚ := if q < 0 then -q else q

/-- One face-mesh landmark: a point in normalized image coordinates. -/
structure Landmark where
  x : ℚ
  y : ℚ
  deriving DecidableEq

/-- A detected face is the ordered list of its landmarks
(indexed by position, as the source indexes `lm[33]`, `lm[263]`, ...). -/
abbrev Face := List Landmark

/-- The argument of `handleFaceResults`: the MediaPipe results object.
`multiFaceLandmarks` may be absent (`undefined` in JavaScript). -/
structure Results where
  multiFaceLandmarks : Option (List Face)
  deriving DecidableEq

/-- The source expression `results.multiFaceLandmarks || []`. -/
def facesOf (r : Results) : List Face := r.multiFaceLandmarks.getD []

/-- Accessing `.x` of an array element that may be `undefined`:
`undefined.x` throws a `TypeError`, modelled as `Except.error ()`. -/
def jsX (o : Option Landmark) : Except Unit ℚ :=
  match o with
  | some l => Except.ok l.x
  | none => Except.error ()

/-- One step of the source `lm.forEach` loop maintaining the accumulators
`minY` (started at 1) and `maxY` (started at 0) for the posture rule. -/
def minMaxStep (p : ℚ × ℚ) (pt : Landmark) : ℚ × ℚ :=
  (if pt.y < p.1 then pt.y else p.1, if pt.y > p.2 then pt.y else p.2)

/-- The single-face geometry rules of `handleFaceResults` (head turn, gaze,
posture), in source order, including the JavaScript short-circuit in the gaze
disjunction (the right-iris `.x` is only read when the left-eye test fails)
and the propagation of a `TypeError` from a missing landmark index. -/
def singleFace (lm : Face) : Except Unit (List String) :=
  match jsX lm[33]? with
  | Except.error e => Except.error e
  | Except.ok leftEyeX =>
    match jsX lm[263]? with
    | Except.error e => Except.error e
    | Except.ok rightEyeX =>
      let eyeMidX := (leftEyeX + rightEyeX) / 2
      let w1 : List String :=
        if mathAbs (eyeMidX - 1/2) > 12/100 then ["Head turned away"] else []
      match jsX lm[468]? with
      | Except.error e => Except.error e
      | Except.ok leftIrisX =>
        match (if mathAbs (leftIrisX - leftEyeX) > 4/100 then Except.ok true
               else match jsX lm[473]? with
                    | Except.error e => Except.error e
                    | Except.ok rightIrisX =>
                        Except.ok (decide (mathAbs (rightIrisX - rightEyeX) > 4/100))) with
        | Except.error e => Except.error e
        | Except.ok gaze =>
          let w2 : List String := if gaze then ["Eyes looking off-screen"] else []
          let mm := lm.foldl minMaxStep (1, 0)
          let w3 : List String := if mm.2 - mm.1 < 18/100 then ["Too far / slouching"] else []
          Except.ok (w1 ++ w2 ++ w3)

/-- The rule battery of `handleFaceResults` after the rate-limit gate:
face-count rules, then (for exactly one face) the geometry rules. -/
def computeWarnings (faces : List Face) : Except Unit (List String) :=
  if faces.length = 0 then Except.ok ["No face detected"]
  else if faces.length > 1 then Except.ok ["Multiple faces detected"]
  else singleFace (faces.headD [])

/-- The mutable state of the Evaluator: `lastCheckRef` and the published
`warnings` React state. -/
structure EvalState where
  lastCheck : ℚ
  warnings : List String
  deriving DecidableEq

/-- How one `handleFaceResults` call ended: rate-limited early return,
normal completion (`setWarnings` called), or an escaped exception. -/
inductive EvalOutcome where
  | skipped
  | updated
  | threw
  deriving DecidableEq

/-- Shallow embedding of `handleFaceResults` (Agent.tsx): given the current
state, the call time `now` (milliseconds) and the results object, produce the
state after the call and how the call ended.  When a landmark access throws,
`lastCheckRef` has already been updated but `setWarnings` is never reached. -/
def handleFaceResults (s : EvalState) (now : ℚ) (r : Results) :
    EvalState × EvalOutcome :=
  if now - s.lastCheck < 1000 then (s, EvalOutcome.skipped)
  else
    match computeWarnings (facesOf r) with
    | Except.ok ws => (⟨now, ws⟩, EvalOutcome.updated)
    | Except.error _ => (⟨now, s.warnings⟩, EvalOutcome.threw)

/-- The head-turn condition as an independent predicate on a face:
the midpoint x of landmarks 33 and 263 drifts more than 0.12 from center. -/
def headTurnFires (lm : Face) : Bool :=
  match lm[33]?, lm[263]? with
  | some le, some re => decide (mathAbs ((le.x + re.x) / 2 - 1/2) > 12/100)
  | _, _ => false

/-- The gaze condition as an independent predicate on a face, with the same
short-circuit shape as the source (right iris only consulted when the
left-eye test fails). -/
def gazeFires (lm : Face) : Bool :=
  match lm[33]?, lm[468]? with
  | some le, some li =>
    if mathAbs (li.x - le.x) > 4/100 then true
    else
      match lm[263]?, lm[473]? with
      | some re, some ri => decide (mathAbs (ri.x - re.x) > 4/100)
      | _, _ => false
  | _, _ => false

/-- The posture condition as an independent predicate on a face: the clamped
vertical extent computed by the source `forEach` fold is below 0.18. -/
def slouchFires (lm : Face) : Bool :=
  let mm := lm.foldl minMaxStep (1, 0)
  decide (mm.2 - mm.1 < 18/100)

/-- A concrete 474-landmark face used as a test vector: landmark 0 sits at
`(x, y1)` and the remaining 473 landmarks (including all the indices the
rules read) sit at `(x, y2)`. -/
def wFace (x y1 y2 : ℚ) : Face := ⟨x, y1⟩ :: List.replicate 473 ⟨x, y2⟩

end Proctoring

namespace Lifecycle

/-- The call lifecycle states of `Agent.tsx`. -/
inductive CallStatus where
  | INACTIVE
  | CONNECTING
  | ACTIVE
  | FINISHED
  deriving DecidableEq

/-- A final-transcript message saved into the `messages` React state. -/
structure SavedMessage where
  role : String
  content : String
  deriving DecidableEq

/-- The argument record of `createFeedback`. -/
structure FeedbackArgs where
  interviewId : String
  userId : String
  transcript : List SavedMessage
  feedbackId : Option String
  deriving DecidableEq

/-- The result of `createFeedback`: `{ success, feedbackId }`. -/
structure PersistResult where
  success : Bool
  feedbackId : Option String
  deriving DecidableEq

/-- JavaScript truthiness of a possibly-absent string (used for the
destructured `id` in `if (success && id)`): `undefined` and `""` are falsy. -/
def jsTruthyStr (s : Option String) : Bool :=
  match s with
  | some v => v ≠ ""
  | none => false

/-- The ref-held resources torn down by the FINISHED-state effect:
`cameraRef`, `faceMeshRef` and `localStreamRef` (holding track ids). -/
structure Resources where
  camera : Option Nat
  faceMesh : Option Nat
  localStream : Option (List Nat)
  deriving DecidableEq

/-- Observable actions performed by the FINISHED-state effect and the
call-start path, in execution order. -/
inductive Action where
  | cameraStop
  | faceMeshClose
  | trackStop (t : Nat)
  | persistFeedback (args : FeedbackArgs)
  | routeTo (path : String)
  deriving DecidableEq

/-- Whether an action is one of the three resource-release actions. -/
def isCleanupAct (a : Action) : Bool :=
  match a with
  | Action.cameraStop => true
  | Action.faceMeshClose => true
  | Action.trackStop _ => true
  | _ => false

/-- Whether an action is an invocation of `createFeedback`. -/
def isPersistAct (a : Action) : Bool :=
  match a with
  | Action.persistFeedback _ => true
  | _ => false

/-- The resource-release prefix of the FINISHED-state effect: each of the
three refs is checked for presence, released, and nulled out. -/
def cleanupResources (r : Resources) : Resources × List Action :=
  let camActs := if r.camera.isSome then [Action.cameraStop] else []
  let fmActs := if r.faceMesh.isSome then [Action.faceMeshClose] else []
  let trackActs :=
    match r.localStream with
    | some ts => ts.map Action.trackStop
    | none => []
  (⟨none, none, none⟩, camActs ++ fmActs ++ trackActs)

/-- The `finalize` closure of the FINISHED-state effect: for call type
`"generate"` route home; otherwise call `createFeedback` once and route on
its result. `persist` is the `createFeedback` behavior of the environment. -/
def finalize (type interviewId userId : String) (feedbackId : Option String)
    (messages : List SavedMessage) (persist : FeedbackArgs → PersistResult) :
    List Action :=
  if type = "generate" then [Action.routeTo "/"]
  else
    let args : FeedbackArgs := ⟨interviewId, userId, messages, feedbackId⟩
    let res := persist args
    Action.persistFeedback args ::
      (if res.success && jsTruthyStr res.feedbackId then
        [Action.routeTo ("/interview/" ++ interviewId ++ "/feedback")]
      else [Action.routeTo "/"])

/-- The whole FINISHED-state effect of `Agent.tsx`: resource cleanup first,
then feedback finalization and routing. -/
def finishedEffect (r : Resources) (type interviewId userId : String)
    (feedbackId : Option String) (messages : List SavedMessage)
    (persist : FeedbackArgs → PersistResult) : Resources × List Action :=
  let c := cleanupResources r
  (c.1, c.2 ++ finalize type interviewId userId feedbackId messages persist)

end Lifecycle

namespace CallStart

open Lifecycle

/-- Environment of one `handleCall` run: whether `getUserMedia` yields a
stream or rejects, and whether `video.play()` succeeds. -/
structure CamEnv where
  getUserMedia : Except Unit Nat
  playOk : Bool

/-- The refs populated by the proctoring-setup `try` block. -/
structure ProctorRefs where
  localStream : Option Nat
  faceMesh : Option Nat
  camera : Option Nat
  deriving DecidableEq

/-- Which `vapi.start` overload `handleCall` ends with. -/
inductive VapiStart where
  | workflow (username userid : String)
  | interviewer (questions : String)
  deriving DecidableEq

/-- Observable actions of a `handleCall` run, in execution order. -/
inductive CAct where
  | setStatus (s : CallStatus)
  | warnSetupFailed
  | vapiStart (v : VapiStart)
  deriving DecidableEq

/-- Whether an action is the `vapi.start` invocation. -/
def isVapiStartAct (a : CAct) : Bool :=
  match a with
  | CAct.vapiStart _ => true
  | _ => false

/-- The `try` block of `handleCall`: acquire the webcam stream, bind and play
it, then set up FaceMesh and the camera loop.  Any throw is caught by the
`catch`, which only logs a warning; refs assigned before the throw keep
their values. -/
def startProctoring (env : CamEnv) : ProctorRefs × Bool :=
  match env.getUserMedia with
  | Except.error _ => (⟨none, none, none⟩, true)
  | Except.ok stream =>
    if env.playOk then (⟨some stream, some 0, some 0⟩, false)
    else (⟨some stream, none, none⟩, true)

/-- The source formatting of the question list:
`questions?.map((q) => "- " + q).join("\n") ?? ""`. -/
def formatQuestions (questions : Option (List String)) : String :=
  match questions with
  | some qs => String.intercalate "\n" (qs.map (fun q => "- " ++ q))
  | none => ""

/-- Shallow embedding of `handleCall` (Agent.tsx): set CONNECTING, attempt
proctoring setup inside `try`/`catch`, then start the voice call
unconditionally. -/
def handleCall (env : CamEnv) (type userName userId : String)
    (questions : Option (List String)) : ProctorRefs × List CAct :=
  let p := startProctoring env
  let v : VapiStart :=
    if type = "generate" then VapiStart.workflow userName userId
    else VapiStart.interviewer (formatQuestions questions)
  (p.1,
    CAct.setStatus CallStatus.CONNECTING ::
      ((if p.2 then [CAct.warnSetupFailed] else []) ++ [CAct.vapiStart v]))

end CallStart

namespace AntiCheat

/-- Environment of one `analyzeFrame` tick of the `useAntiCheat` hook:
presence of the video element and the two models, and the results (or
thrown errors) of the two inference calls. -/
structure ACEnv where
  video : Bool
  faceModel : Bool
  objModel : Bool
  faces : Except Unit Nat
  persons : Except Unit Nat

/-- Shallow embedding of `analyzeFrame` (useAntiCheat): alerts accumulated
this tick.  The `try`/`catch` keeps alerts pushed before a thrown inference
error; the result is what `setAlerts` publishes unconditionally at the end
of the tick. -/
def analyzeFrame (env : ACEnv) : List String :=
  if env.video && env.faceModel && env.objModel then
    match env.faces with
    | Except.error _ => []
    | Except.ok fc =>
      let a1 : List String := if fc ≠ 1 then ["Face count: " ++ toString fc] else []
      match env.persons with
      | Except.error _ => a1
      | Except.ok pc =>
        a1 ++ (if pc ≠ 1 then ["People detected: " ++ toString pc] else [])
  else []

/-- One animation-frame tick: the previous published alert state is replaced
by the result of this tick, unconditionally. -/
def antiCheatTick (_prev : List String) (env : ACEnv) : List String :=
  analyzeFrame env

/-- What the `AntiCheatOverlay` component renders. -/
inductive OverlayView where
  | allClear
  | alertLines (alerts : List String)
  deriving DecidableEq

/-- Shallow embedding of `AntiCheatOverlay`: the all-clear message exactly
when the alert list is empty. -/
def antiCheatOverlay (alerts : List String) : OverlayView :=
  if alerts.length = 0 then OverlayView.allClear else OverlayView.alertLines alerts

end AntiCheat

namespace Proctoring

/-- The Mathlib absolute value agrees with the embedded `Math.abs`. -/
theorem mathAbs_eq_abs (q : ℚ) : mathAbs q = |q| := by
  unfold mathAbs
  by_cases h : q < 0
  · rw [if_pos h, abs_of_neg h]
  · rw [if_neg h, abs_of_nonneg (le_of_not_lt h)]

/-- The value a successful `singleFace` run publishes is exactly the ordered
concatenation of the three independent geometry-rule contributions. -/
theorem singleFace_ok_eq (lm : Face) (ws : List String)
    (h : singleFace lm = Except.ok ws) :
    ws = (if headTurnFires lm then ["Head turned away"] else [])
      ++ (if gazeFires lm then ["Eyes looking off-screen"] else [])
      ++ (if slouchFires lm then ["Too far / slouching"] else []) := by
  unfold singleFace at h
  cases h33 : lm[33]? with
  | none => rw [h33] at h; simp [jsX] at h
  | some le =>
    rw [h33] at h
    cases h263 : lm[263]? with
    | none => rw [h263] at h; simp [jsX] at h
    | some re =>
      rw [h263] at h
      cases h468 : lm[468]? with
      | none => rw [h468] at h; simp [jsX] at h
      | some li =>
        rw [h468] at h
        simp only [jsX] at h
        by_cases hg1 : mathAbs (li.x - le.x) > 4/100
        · rw [if_pos hg1] at h
          simp only [Except.ok.injEq] at h
          subst h
          simp [headTurnFires, gazeFires, slouchFires, h33, h263, h468, hg1]
        · rw [if_neg hg1] at h
          cases h473 : lm[473]? with
          | none => rw [h473] at h; simp at h
          | some ri =>
            rw [h473] at h
            simp only [Except.ok.injEq] at h
            subst h
            simp [headTurnFires, gazeFires, slouchFires, h33, h263, h468, h473, hg1]

/-- A face that has all the landmark indices the rules read (in particular
any face of full mesh length) never makes `singleFace` throw. -/
theorem singleFace_isOk (lm : Face) (hlen : 474 ≤ lm.length) :
    ∃ ws, singleFace lm = Except.ok ws := by
  have h33 : lm[33]? = some (lm.get ⟨33, by omega⟩) := by
    simp [List.getElem?_eq_getElem (by omega : 33 < lm.length)]
  have h263 : lm[263]? = some (lm.get ⟨263, by omega⟩) := by
    simp [List.getElem?_eq_getElem (by omega : 263 < lm.length)]
  have h468 : lm[468]? = some (lm.get ⟨468, by omega⟩) := by
    simp [List.getElem?_eq_getElem (by omega : 468 < lm.length)]
  have h473 : lm[473]? = some (lm.get ⟨473, by omega⟩) := by
    simp [List.getElem?_eq_getElem (by omega : 473 < lm.length)]
  unfold singleFace
  rw [h33, h263, h468]
  simp only [jsX]
  by_cases hg1 : mathAbs ((lm.get ⟨468, by omega⟩).x - (lm.get ⟨33, by omega⟩).x) > 4/100
  · rw [if_pos hg1]; exact ⟨_, rfl⟩
  · rw [if_neg hg1, h473]; exact ⟨_, rfl⟩

/-- Once the accumulator pair is a fixed point of the min/max step for a
point, folding over any number of copies of that point leaves it unchanged. -/
theorem foldl_minMaxStep_fixed (a : Landmark) (p : ℚ × ℚ)
    (hfix : minMaxStep p a = p) :
    ∀ n, List.foldl minMaxStep p (List.replicate n a) = p := by
  intro n
  induction n with
  | zero => rfl
  | succ k ih => rw [List.replicate_succ, List.foldl_cons, hfix]; exact ih

/-- Value of the posture fold on a `wFace` test vector. -/
theorem foldl_minMaxStep_wFace (x y1 y2 : ℚ) (h0 : 0 < y2) (h21 : y2 ≤ y1)
    (h1 : y1 < 1) :
    List.foldl minMaxStep (1, 0) (wFace x y1 y2) = (y2, y1) := by
  have hy1pos : (0 : ℚ) < y1 := lt_of_lt_of_le h0 h21
  unfold wFace
  rw [List.foldl_cons]
  have s1 : minMaxStep (1, 0) ⟨x, y1⟩ = (y1, y1) := by
    unfold minMaxStep
    rw [if_pos h1, if_pos hy1pos]
  rw [s1,
    show List.replicate 473 (⟨x, y2⟩ : Landmark) = ⟨x, y2⟩ :: List.replicate 472 ⟨x, y2⟩ from rfl,
    List.foldl_cons]
  have s2 : minMaxStep (y1, y1) ⟨x, y2⟩ = (y2, y1) := by
    unfold minMaxStep
    have h2 : (if y2 < y1 then y2 else y1) = y2 := by
      by_cases hlt : y2 < y1
      · rw [if_pos hlt]
      · rw [if_neg hlt]; exact (le_antisymm h21 (le_of_not_lt hlt)).symm
    rw [if_neg (not_lt_of_le h21)]
    simp only [h2]
  rw [s2]
  exact foldl_minMaxStep_fixed ⟨x, y2⟩ (y2, y1)
    (by unfold minMaxStep; rw [if_neg (lt_irrefl y2), if_neg (not_lt_of_le h21)]) 472

/-- Landmark lookups on a `wFace` test vector hit the constant tail. -/
theorem wFace_getElem_succ (x y1 y2 : ℚ) (j : ℕ) (hj : j < 473) :
    (wFace x y1 y2)[j + 1]? = some ⟨x, y2⟩ := by
  show ((⟨x, y1⟩ : Landmark) :: List.replicate 473 ⟨x, y2⟩)[j + 1]? = some ⟨x, y2⟩
  rw [List.getElem?_cons_succ]
  exact List.getElem?_replicate_of_lt hj

set_option maxRecDepth 8000 in
/-- Full evaluation of the geometry rules on a `wFace` test vector. -/
theorem singleFace_wFace (x y1 y2 : ℚ) (h0 : 0 < y2) (h21 : y2 ≤ y1)
    (h1 : y1 < 1) :
    singleFace (wFace x y1 y2) =
      Except.ok
        ((if mathAbs ((x + x) / 2 - 1/2) > 12/100 then ["Head turned away"] else [])
          ++ (if y1 - y2 < 18/100 then ["Too far / slouching"] else [])) := by
  have g33 : (wFace x y1 y2)[33]? = some ⟨x, y2⟩ := by
    have := wFace_getElem_succ x y1 y2 32 (by norm_num)
    simpa using this
  have g263 : (wFace x y1 y2)[263]? = some ⟨x, y2⟩ := by
    have := wFace_getElem_succ x y1 y2 262 (by norm_num)
    simpa using this
  have g468 : (wFace x y1 y2)[468]? = some ⟨x, y2⟩ := by
    have := wFace_getElem_succ x y1 y2 467 (by norm_num)
    simpa using this
  have g473 : (wFace x y1 y2)[473]? = some ⟨x, y2⟩ := by
    have := wFace_getElem_succ x y1 y2 472 (by norm_num)
    simpa using this
  unfold singleFace
  rw [g33, g263, g468]
  simp only [jsX]
  have hg : ¬ mathAbs ((Landmark.mk x y2).x - (Landmark.mk x y2).x) > 4/100 := by
    norm_num [mathAbs]
  rw [if_neg hg, g473]
  simp only [jsX, hg, decide_eq_true_eq]
  rw [foldl_minMaxStep_wFace x y1 y2 h0 h21 h1]
  simp

/-- Length of the `wFace` test vector. -/
theorem wFace_length (x y1 y2 : ℚ) : (wFace x y1 y2).length = 474 := by
  show ((⟨x, y1⟩ : Landmark) :: List.replicate 473 ⟨x, y2⟩).length = 474
  rw [List.length_cons, List.length_replicate]

end Proctoring

open Proctoring Lifecycle CallStart AntiCheat

/-- C1: a call to the Evaluator less than 1000 ms after the last evaluation is
a no-op (state unchanged, outcome skipped); otherwise the last-evaluation
timestamp becomes the current time and rule evaluation proceeds. -/
theorem evaluator_rate_limit (s : EvalState) (now : ℚ) (r : Results) :
    (now - s.lastCheck < 1000 →
      handleFaceResults s now r = (s, EvalOutcome.skipped)) ∧
    (¬ now - s.lastCheck < 1000 →
      (handleFaceResults s now r).1.lastCheck = now ∧
      (handleFaceResults s now r).2 ≠ EvalOutcome.skipped) := by
  constructor
  · intro h
    unfold handleFaceResults
    rw [if_pos h]
  · intro h
    unfold handleFaceResults
    rw [if_neg h]
    cases hw : computeWarnings (facesOf r) <;> simp

/-- C1 witness. -/
theorem evaluator_rate_limit_witness :
    handleFaceResults ⟨0, ["w"]⟩ 999 ⟨some []⟩ = (⟨0, ["w"]⟩, EvalOutcome.skipped) ∧
    (handleFaceResults ⟨0, ["w"]⟩ 2000 ⟨some []⟩).1.lastCheck = 2000 :=
  ⟨(evaluator_rate_limit ⟨0, ["w"]⟩ 999 ⟨some []⟩).1 (by norm_num),
    ((evaluator_rate_limit ⟨0, ["w"]⟩ 2000 ⟨some []⟩).2 (by norm_num)).1⟩

/-- C2: face-count rules and their exclusivity with geometry rules. -/
theorem evaluator_face_count (s : EvalState) (now : ℚ) (r : Results)
    (h : ¬ now - s.lastCheck < 1000) :
    (facesOf r = [] →
      (handleFaceResults s now r).1.warnings = ["No face detected"]) ∧
    (1 < (facesOf r).length →
      (handleFaceResults s now r).1.warnings = ["Multiple faces detected"]) ∧
    (∀ ws, computeWarnings (facesOf r) = Except.ok ws →
      ((facesOf r).length = 1 →
        "No face detected" ∉ ws ∧ "Multiple faces detected" ∉ ws) ∧
      ((facesOf r).length ≠ 1 →
        "Head turned away" ∉ ws ∧ "Eyes looking off-screen" ∉ ws ∧
          "Too far / slouching" ∉ ws)) := by
  refine ⟨?_, ?_, ?_⟩
  · intro hf
    unfold handleFaceResults
    rw [if_neg h]
    have hc : computeWarnings (facesOf r) = Except.ok ["No face detected"] := by
      unfold computeWarnings
      rw [hf]
      rfl
    rw [hc]
  · intro hlen
    unfold handleFaceResults
    rw [if_neg h]
    have hc : computeWarnings (facesOf r) = Except.ok ["Multiple faces detected"] := by
      unfold computeWarnings
      rw [if_neg (by omega : ¬ (facesOf r).length = 0), if_pos hlen]
    rw [hc]
  · intro ws hws
    constructor
    · intro h1
      unfold computeWarnings at hws
      rw [if_neg (by omega : ¬ (facesOf r).length = 0),
        if_neg (by omega : ¬ (facesOf r).length > 1)] at hws
      have he := singleFace_ok_eq _ _ hws
      subst he
      constructor <;> (intro hmem; split_ifs at hmem <;> simp_all)
    · intro h1
      unfold computeWarnings at hws
      by_cases h0 : (facesOf r).length = 0
      · rw [if_pos h0] at hws
        simp only [Except.ok.injEq] at hws
        subst hws
        simp
      · rw [if_neg h0, if_pos (by omega : (facesOf r).length > 1)] at hws
        simp only [Except.ok.injEq] at hws
        subst hws
        simp

/-- C2 witness. -/
theorem evaluator_face_count_witness :
    (handleFaceResults ⟨0, []⟩ 1500 ⟨some []⟩).1.warnings = ["No face detected"] ∧
    (handleFaceResults ⟨0, []⟩ 1500 ⟨some [[], []]⟩).1.warnings = ["Multiple faces detected"] :=
  ⟨(evaluator_face_count ⟨0, []⟩ 1500 ⟨some []⟩ (by norm_num)).1 rfl,
    (evaluator_face_count ⟨0, []⟩ 1500 ⟨some [[], []]⟩ (by norm_num)).2.1 (by simp [facesOf])⟩

/-- C3 counterexample: a single face whose landmark list misses index 33
makes `handleFaceResults` throw (outcome `threw`): the AlertSet is left at
its previous value instead of being updated, refuting exception isolation. -/
theorem evaluator_exception_counterexample :
    handleFaceResults ⟨0, ["stale"]⟩ 1000 ⟨some [[]]⟩ =
      (⟨1000, ["stale"]⟩, EvalOutcome.threw) := by
  norm_num [handleFaceResults, computeWarnings, facesOf, singleFace, jsX]

/-- C3 amended: a missing expected landmark index makes the evaluation throw;
the escaped exception leaves the AlertSet unchanged (though the timestamp is
already updated), while a face holding all expected indices always completes
with an AlertSet update. -/
theorem evaluator_exception_amended (s : EvalState) (now : ℚ) (r : Results)
    (h : ¬ now - s.lastCheck < 1000) :
    ((handleFaceResults s now r).2 = EvalOutcome.threw →
      (handleFaceResults s now r).1.warnings = s.warnings ∧
      (handleFaceResults s now r).1.lastCheck = now) ∧
    (∀ lm, facesOf r = [lm] → 474 ≤ lm.length →
      (handleFaceResults s now r).2 = EvalOutcome.updated) := by
  constructor
  · intro ht
    unfold handleFaceResults at ht ⊢
    rw [if_neg h] at ht ⊢
    cases hw : computeWarnings (facesOf r) with
    | ok ws => rw [hw] at ht; exact EvalOutcome.noConfusion ht
    | error e => exact ⟨rfl, rfl⟩
  · intro lm hfr hlen
    unfold handleFaceResults
    rw [if_neg h]
    have h1 : computeWarnings (facesOf r) = singleFace lm := by
      unfold computeWarnings
      rw [hfr]
      rfl
    obtain ⟨ws, hws⟩ := singleFace_isOk lm hlen
    rw [h1, hws]

/-- C3 amended witness. -/
theorem evaluator_exception_amended_witness :
    (handleFaceResults ⟨0, []⟩ 1500 ⟨some [wFace (1/2) (1/2) (1/2)]⟩).2 =
      EvalOutcome.updated :=
  (evaluator_exception_amended ⟨0, []⟩ 1500 ⟨some [wFace (1/2) (1/2) (1/2)]⟩
    (by norm_num)).2 (wFace (1/2) (1/2) (1/2)) rfl (by rw [wFace_length])

/-- C9: the FINISHED-state resource release is idempotent: it nulls every
ref, and running it again on the resulting state performs no action. -/
theorem cleanup_idempotent (r : Resources) :
    cleanupResources (cleanupResources r).1 = ((cleanupResources r).1, []) ∧
    (cleanupResources r).1 = ⟨none, none, none⟩ :=
  ⟨rfl, rfl⟩

namespace Proctoring

/-- Invariant of the posture fold: each accumulator component either keeps
its initial value or is the y of some traversed landmark, the minimum
component only decreases and bounds every traversed y from below, and dually
for the maximum component. -/
theorem foldl_minMaxStep_invariant (l : Face) (p : ℚ × ℚ) :
    ((l.foldl minMaxStep p).1 = p.1 ∨ ∃ pt ∈ l, pt.y = (l.foldl minMaxStep p).1) ∧
    (l.foldl minMaxStep p).1 ≤ p.1 ∧
    (∀ pt ∈ l, (l.foldl minMaxStep p).1 ≤ pt.y) ∧
    ((l.foldl minMaxStep p).2 = p.2 ∨ ∃ pt ∈ l, pt.y = (l.foldl minMaxStep p).2) ∧
    p.2 ≤ (l.foldl minMaxStep p).2 ∧
    (∀ pt ∈ l, pt.y ≤ (l.foldl minMaxStep p).2) := by
  induction l generalizing p with
  | nil => simp
  | cons a t ih =>
    rw [List.foldl_cons]
    obtain ⟨ih1, ih2, ih3, ih4, ih5, ih6⟩ := ih (minMaxStep p a)
    have hs1 : (minMaxStep p a).1 = min p.1 a.y := by
      unfold minMaxStep
      by_cases hy : a.y < p.1
      · rw [if_pos hy]; exact (min_eq_right (le_of_lt hy)).symm
      · rw [if_neg hy]; exact (min_eq_left (le_of_not_lt hy)).symm
    have hs2 : (minMaxStep p a).2 = max p.2 a.y := by
      unfold minMaxStep
      by_cases hy : a.y > p.2
      · rw [if_pos hy]
        exact (max_eq_right (le_of_lt hy)).symm
      · rw [if_neg hy]
        exact (max_eq_left (le_of_not_lt hy)).symm
    refine ⟨?_, ?_, ?_, ?_, ?_, ?_⟩
    · rcases ih1 with h1 | ⟨pt, hpt, hpe⟩
      · rw [h1, hs1]
        rcases min_cases p.1 a.y with ⟨he, _⟩ | ⟨he, _⟩
        · left; exact he
        · right; exact ⟨a, List.mem_cons_self a t, he.symm⟩
      · right; exact ⟨pt, List.mem_cons_of_mem a hpt, hpe⟩
    · exact le_trans ih2 (by rw [hs1]; exact min_le_left _ _)
    · intro pt hpt
      rcases List.mem_cons.mp hpt with rfl | hmem
      · exact le_trans ih2 (by rw [hs1]; exact min_le_right _ _)
      · exact ih3 pt hmem
    · rcases ih4 with h4 | ⟨pt, hpt, hpe⟩
      · rw [h4, hs2]
        rcases max_cases p.2 a.y with ⟨he, _⟩ | ⟨he, _⟩
        · left; exact he
        · right; exact ⟨a, List.mem_cons_self a t, he.symm⟩
      · right; exact ⟨pt, List.mem_cons_of_mem a hpt, hpe⟩
    · exact le_trans (by rw [hs2]; exact le_max_left _ _) ih5
    · intro pt hpt
      rcases List.mem_cons.mp hpt with rfl | hmem
      · exact le_trans (by rw [hs2]; exact le_max_right _ _) ih5
      · exact ih6 pt hmem

/-- On a nonempty face with normalized y-coordinates, the two posture fold
result components are attained y values bounding the y of every landmark. -/
theorem foldl_minMaxStep_minmax (lm : Face) (hne : lm ≠ [])
    (hy : ∀ pt ∈ lm, 0 ≤ pt.y ∧ pt.y ≤ 1) :
    (∃ pt ∈ lm, pt.y = (lm.foldl minMaxStep (1, 0)).1) ∧
    (∃ pt ∈ lm, pt.y = (lm.foldl minMaxStep (1, 0)).2) ∧
    (∀ pt ∈ lm, (lm.foldl minMaxStep (1, 0)).1 ≤ pt.y ∧
      pt.y ≤ (lm.foldl minMaxStep (1, 0)).2) := by
  obtain ⟨i1, i2, i3, i4, i5, i6⟩ := foldl_minMaxStep_invariant lm (1, 0)
  obtain ⟨pt0, hpt0⟩ := List.exists_mem_of_ne_nil lm hne
  refine ⟨?_, ?_, fun pt hpt => ⟨i3 pt hpt, i6 pt hpt⟩⟩
  · rcases i1 with h1 | h1
    · exact ⟨pt0, hpt0, le_antisymm ((hy pt0 hpt0).2.trans (le_of_eq h1.symm))
        (i3 pt0 hpt0)⟩
    · exact h1
  · rcases i4 with h4 | h4
    · exact ⟨pt0, hpt0, le_antisymm (i6 pt0 hpt0)
        ((le_of_eq h4).trans (hy pt0 hpt0).1)⟩
    · exact h4

end Proctoring

/-- C8: a successful single-face evaluation publishes exactly the ordered
concatenation of the three independent geometry rule labels, so every
subset of geometry conditions that holds appears together, in the fixed
rule-evaluation order. -/
theorem evaluator_rule_order (lm : Proctoring.Face) (ws : List String)
    (h : Proctoring.singleFace lm = Except.ok ws) :
    ws = (if Proctoring.headTurnFires lm then ["Head turned away"] else [])
      ++ (if Proctoring.gazeFires lm then ["Eyes looking off-screen"] else [])
      ++ (if Proctoring.slouchFires lm then ["Too far / slouching"] else []) ∧
    ws.Sublist ["Head turned away", "Eyes looking off-screen", "Too far / slouching"] := by
  have he := Proctoring.singleFace_ok_eq lm ws h
  refine ⟨he, ?_⟩
  subst he
  split_ifs <;> simp

/-- C8 witness. -/
theorem evaluator_rule_order_witness :
    (["Head turned away", "Too far / slouching"] : List String) =
      (if Proctoring.headTurnFires (Proctoring.wFace (63/100) (1/2) (1/2))
        then ["Head turned away"] else [])
      ++ (if Proctoring.gazeFires (Proctoring.wFace (63/100) (1/2) (1/2))
        then ["Eyes looking off-screen"] else [])
      ++ (if Proctoring.slouchFires (Proctoring.wFace (63/100) (1/2) (1/2))
        then ["Too far / slouching"] else []) ∧
    List.Sublist ["Head turned away", "Too far / slouching"]
      ["Head turned away", "Eyes looking off-screen", "Too far / slouching"] := by
  have h : Proctoring.singleFace (Proctoring.wFace (63/100) (1/2) (1/2)) =
      Except.ok ["Head turned away", "Too far / slouching"] := by
    rw [Proctoring.singleFace_wFace (63/100) (1/2) (1/2) (by norm_num) (le_refl _)
      (by norm_num)]
    norm_num [Proctoring.mathAbs]
  exact evaluator_rule_order _ _ h

/-- C6: the head-turn alert is emitted exactly when the midpoint x of the two
outer eye-corner landmarks drifts strictly more than 0.12 from 0.5. -/
theorem evaluator_head_turn (lm : Proctoring.Face) (ws : List String)
    (le re : Proctoring.Landmark)
    (h : Proctoring.singleFace lm = Except.ok ws)
    (h33 : lm[33]? = some le) (h263 : lm[263]? = some re) :
    ("Head turned away" ∈ ws ↔ |(le.x + re.x) / 2 - 1/2| > 12/100) := by
  have he := Proctoring.singleFace_ok_eq lm ws h
  subst he
  have hht : Proctoring.headTurnFires lm =
      decide (Proctoring.mathAbs ((le.x + re.x) / 2 - 1/2) > 12/100) := by
    unfold Proctoring.headTurnFires
    rw [h33, h263]
  rw [hht, Proctoring.mathAbs_eq_abs]
  by_cases hc : |(le.x + re.x) / 2 - 1/2| > 12/100
  · simp only [hc, decide_True, if_true, iff_true]
    simp
  · simp only [hc, decide_False, if_false, iff_false, List.nil_append]
    intro hmem
    rw [List.mem_append] at hmem
    rcases hmem with hm | hm <;> split_ifs at hm <;> simp_all

/-- C6 witness: present at eye-corner midpoint x = 0.63, absent at 0.5. -/
theorem evaluator_head_turn_witness :
    ("Head turned away" ∈ (["Head turned away", "Too far / slouching"] : List String)) ∧
    "Head turned away" ∉ (["Too far / slouching"] : List String) := by
  have h63 : Proctoring.singleFace (Proctoring.wFace (63/100) (1/2) (1/2)) =
      Except.ok ["Head turned away", "Too far / slouching"] := by
    rw [Proctoring.singleFace_wFace (63/100) (1/2) (1/2) (by norm_num) (le_refl _)
      (by norm_num)]
    norm_num [Proctoring.mathAbs]
  have h50 : Proctoring.singleFace (Proctoring.wFace (1/2) (1/2) (1/2)) =
      Except.ok ["Too far / slouching"] := by
    rw [Proctoring.singleFace_wFace (1/2) (1/2) (1/2) (by norm_num) (le_refl _)
      (by norm_num)]
    norm_num [Proctoring.mathAbs]
  have g33a : (Proctoring.wFace (63/100) (1/2) (1/2))[33]? = some ⟨63/100, 1/2⟩ := by
    have := Proctoring.wFace_getElem_succ (63/100) (1/2) (1/2) 32 (by norm_num)
    simpa using this
  have g263a : (Proctoring.wFace (63/100) (1/2) (1/2))[263]? = some ⟨63/100, 1/2⟩ := by
    have := Proctoring.wFace_getElem_succ (63/100) (1/2) (1/2) 262 (by norm_num)
    simpa using this
  have g33b : (Proctoring.wFace (1/2) (1/2) (1/2))[33]? = some ⟨1/2, 1/2⟩ := by
    have := Proctoring.wFace_getElem_succ (1/2) (1/2) (1/2) 32 (by norm_num)
    simpa using this
  have g263b : (Proctoring.wFace (1/2) (1/2) (1/2))[263]? = some ⟨1/2, 1/2⟩ := by
    have := Proctoring.wFace_getElem_succ (1/2) (1/2) (1/2) 262 (by norm_num)
    simpa using this
  constructor
  · refine (evaluator_head_turn _ _ ⟨63/100, 1/2⟩ ⟨63/100, 1/2⟩ h63 g33a g263a).2 ?_
    rw [show ((63:ℚ)/100 + 63/100) / 2 - 1/2 = 13/100 by ring,
      abs_of_pos (by norm_num : (0:ℚ) < 13/100)]
    norm_num
  · intro hmem
    have := (evaluator_head_turn _ _ ⟨1/2, 1/2⟩ ⟨1/2, 1/2⟩ h50 g33b g263b).1 hmem
    rw [show ((1:ℚ)/2 + 1/2) / 2 - 1/2 = 0 by ring] at this
    norm_num at this

/-- C7: the slouch alert is emitted exactly when the vertical face extent
(the difference between an attained maximal and an attained minimal landmark
y) is strictly below 0.18. -/
theorem evaluator_posture (lm : Proctoring.Face) (ws : List String)
    (h : Proctoring.singleFace lm = Except.ok ws) (hne : lm ≠ [])
    (hy : ∀ pt ∈ lm, 0 ≤ pt.y ∧ pt.y ≤ 1) :
    ∃ ymin ymax : ℚ,
      (∃ pt ∈ lm, pt.y = ymin) ∧ (∃ pt ∈ lm, pt.y = ymax) ∧
      (∀ pt ∈ lm, ymin ≤ pt.y ∧ pt.y ≤ ymax) ∧
      ("Too far / slouching" ∈ ws ↔ ymax - ymin < 18/100) := by
  obtain ⟨hmin, hmax, hbnd⟩ := Proctoring.foldl_minMaxStep_minmax lm hne hy
  refine ⟨(lm.foldl Proctoring.minMaxStep (1, 0)).1,
    (lm.foldl Proctoring.minMaxStep (1, 0)).2, hmin, hmax, hbnd, ?_⟩
  have he := Proctoring.singleFace_ok_eq lm ws h
  subst he
  by_cases hc : (lm.foldl Proctoring.minMaxStep (1, 0)).2 -
      (lm.foldl Proctoring.minMaxStep (1, 0)).1 < 18/100
  · simp only [hc, iff_true]
    have hsl : Proctoring.slouchFires lm = true := by
      unfold Proctoring.slouchFires
      simpa using hc
    rw [hsl]
    simp
  · simp only [hc, iff_false]
    have hsl : Proctoring.slouchFires lm = false := by
      unfold Proctoring.slouchFires
      simpa using hc
    rw [hsl]
    intro hmem
    rw [List.mem_append] at hmem
    rcases hmem with hm | hm
    · rw [List.mem_append] at hm
      rcases hm with hm2 | hm2 <;> split_ifs at hm2 <;> simp_all
    · simp at hm

/-- C7 witness: absent at vertical extent exactly 0.18, present at 0.10. -/
theorem evaluator_posture_witness :
    (∃ ymin ymax : ℚ,
      (∃ pt ∈ Proctoring.wFace (1/2) (12/25) (3/10), pt.y = ymin) ∧
      (∃ pt ∈ Proctoring.wFace (1/2) (12/25) (3/10), pt.y = ymax) ∧
      (∀ pt ∈ Proctoring.wFace (1/2) (12/25) (3/10), ymin ≤ pt.y ∧ pt.y ≤ ymax) ∧
      ("Too far / slouching" ∈ ([] : List String) ↔ ymax - ymin < 18/100)) ∧
    (∃ ymin ymax : ℚ,
      (∃ pt ∈ Proctoring.wFace (1/2) (2/5) (3/10), pt.y = ymin) ∧
      (∃ pt ∈ Proctoring.wFace (1/2) (2/5) (3/10), pt.y = ymax) ∧
      (∀ pt ∈ Proctoring.wFace (1/2) (2/5) (3/10), ymin ≤ pt.y ∧ pt.y ≤ ymax) ∧
      (("Too far / slouching" : String) ∈ ["Too far / slouching"] ↔
        ymax - ymin < 18/100)) := by
  have hy1 : ∀ pt ∈ Proctoring.wFace (1/2) (12/25) (3/10), 0 ≤ pt.y ∧ pt.y ≤ 1 := by
    intro pt hpt
    unfold Proctoring.wFace at hpt
    rcases List.mem_cons.mp hpt with rfl | hmem
    · norm_num
    · rw [List.eq_of_mem_replicate hmem]
      norm_num
  have hy2 : ∀ pt ∈ Proctoring.wFace (1/2) (2/5) (3/10), 0 ≤ pt.y ∧ pt.y ≤ 1 := by
    intro pt hpt
    unfold Proctoring.wFace at hpt
    rcases List.mem_cons.mp hpt with rfl | hmem
    · norm_num
    · rw [List.eq_of_mem_replicate hmem]
      norm_num
  have hne1 : Proctoring.wFace (1/2) (12/25) (3/10) ≠ [] := by
    unfold Proctoring.wFace
    exact List.cons_ne_nil _ _
  have hne2 : Proctoring.wFace (1/2) (2/5) (3/10) ≠ [] := by
    unfold Proctoring.wFace
    exact List.cons_ne_nil _ _
  have h1 : Proctoring.singleFace (Proctoring.wFace (1/2) (12/25) (3/10)) =
      Except.ok [] := by
    rw [Proctoring.singleFace_wFace (1/2) (12/25) (3/10) (by norm_num) (by norm_num)
      (by norm_num)]
    norm_num [Proctoring.mathAbs]
  have h2 : Proctoring.singleFace (Proctoring.wFace (1/2) (2/5) (3/10)) =
      Except.ok ["Too far / slouching"] := by
    rw [Proctoring.singleFace_wFace (1/2) (2/5) (3/10) (by norm_num) (by norm_num)
      (by norm_num)]
    norm_num [Proctoring.mathAbs]
  exact ⟨evaluator_posture _ _ h1 hne1 hy1, evaluator_posture _ _ h2 hne2 hy2⟩

/-- C4 counterexample: on a FINISHED transition with call type "generate",
`createFeedback` is not invoked at all (the claim demands exactly one
invocation on every FINISHED transition). -/
theorem finished_feedback_counterexample :
    ¬ (((finishedEffect ⟨none, none, none⟩ "generate" "i1" "u1" none []
        (fun _ => ⟨true, some "f1"⟩)).2.filter isPersistAct).length = 1) := by
  decide

/-- C4 amended: after the resource-release actions (which are only resource
releases), call type "generate" persists nothing and routes to the landing
view, while any other call type invokes `createFeedback` exactly once with
the accumulated transcript and routes on its result. -/
theorem finished_feedback_amended (r : Resources) (type iid uid : String)
    (fid : Option String) (msgs : List SavedMessage)
    (persist : FeedbackArgs → PersistResult) :
    (type = "generate" →
      (finishedEffect r type iid uid fid msgs persist).2 =
        (cleanupResources r).2 ++ [Action.routeTo "/"]) ∧
    (type ≠ "generate" →
      (finishedEffect r type iid uid fid msgs persist).2 =
        (cleanupResources r).2 ++
          [Action.persistFeedback ⟨iid, uid, msgs, fid⟩,
            Action.routeTo
              (if (persist ⟨iid, uid, msgs, fid⟩).success &&
                  jsTruthyStr (persist ⟨iid, uid, msgs, fid⟩).feedbackId
               then "/interview/" ++ iid ++ "/feedback" else "/")]) ∧
    (∀ a ∈ (cleanupResources r).2, isCleanupAct a = true) := by
  refine ⟨?_, ?_, ?_⟩
  · intro ht
    unfold finishedEffect finalize
    rw [if_pos ht]
  · intro ht
    simp only [finishedEffect, finalize, if_neg ht]
    rcases Bool.eq_false_or_eq_true ((persist ⟨iid, uid, msgs, fid⟩).success &&
        jsTruthyStr (persist ⟨iid, uid, msgs, fid⟩).feedbackId) with hb | hb <;>
      rw [hb] <;> simp
  · intro a ha
    rcases r with ⟨cam, fm, ls⟩
    unfold cleanupResources at ha
    simp only [List.mem_append] at ha
    rcases ha with (ha | ha) | ha
    · split_ifs at ha <;> simp_all [isCleanupAct]
    · split_ifs at ha <;> simp_all [isCleanupAct]
    · rcases ls with _ | ts
      · simp at ha
      · obtain ⟨t, _, rfl⟩ := List.mem_map.mp ha
        rfl

/-- C4 amended witness. -/
theorem finished_feedback_amended_witness :
    (finishedEffect ⟨some 1, none, some [5]⟩ "interview" "i1" "u1" none
        [⟨"user", "hello"⟩] (fun _ => ⟨true, some "fid1"⟩)).2 =
      (cleanupResources ⟨some 1, none, some [5]⟩).2 ++
        [Action.persistFeedback ⟨"i1", "u1", [⟨"user", "hello"⟩], none⟩,
          Action.routeTo "/interview/i1/feedback"] := by
  have h := (finished_feedback_amended ⟨some 1, none, some [5]⟩ "interview" "i1" "u1"
      none [⟨"user", "hello"⟩] (fun _ => ⟨true, some "fid1"⟩)).2.1 (by decide)
  simpa [jsTruthyStr] using h

/-- C5: a camera/model setup failure in `handleCall` is caught and logged;
the voice call is still started exactly once, as the last action of the run, and
on failure the proctoring refs stay empty (so no alerts can ever fire). -/
theorem call_start_degrades (env : CamEnv) (type userName userId : String)
    (qs : Option (List String)) :
    ((handleCall env type userName userId qs).2.filter isVapiStartAct).length = 1 ∧
    ((handleCall env type userName userId qs).2.getLast? =
      some (CAct.vapiStart (if type = "generate" then VapiStart.workflow userName userId
        else VapiStart.interviewer (formatQuestions qs)))) ∧
    (env.getUserMedia = Except.error () →
      (handleCall env type userName userId qs).1 = ⟨none, none, none⟩ ∧
      CAct.warnSetupFailed ∈ (handleCall env type userName userId qs).2) := by
  refine ⟨?_, ?_, ?_⟩
  · rcases Bool.eq_false_or_eq_true (startProctoring env).2 with hw | hw <;>
      simp [handleCall, hw, isVapiStartAct, List.filter]
  · rcases Bool.eq_false_or_eq_true (startProctoring env).2 with hw | hw <;>
      simp only [handleCall, hw, if_false, if_true, Bool.false_eq_true] <;>
      rw [show ∀ (w : List CAct) (v : CAct), CAct.setStatus CallStatus.CONNECTING ::
          (w ++ [v]) = (CAct.setStatus CallStatus.CONNECTING :: w) ++ [v] from
          fun _ _ => rfl, List.getLast?_concat]
  · intro herr
    have hsp : startProctoring env = (⟨none, none, none⟩, true) := by
      unfold startProctoring
      rw [herr]
    simp [handleCall, hsp]

/-- C5 witness. -/
theorem call_start_degrades_witness :
    (handleCall ⟨Except.error (), true⟩ "interview" "Ann" "u1" none).1 =
      ⟨none, none, none⟩ ∧
    CAct.warnSetupFailed ∈
      (handleCall ⟨Except.error (), true⟩ "interview" "Ann" "u1" none).2 :=
  (call_start_degrades ⟨Except.error (), true⟩ "interview" "Ann" "u1" none).2.2 rfl

/-- C10: the useAntiCheat tick publishes its freshly accumulated list
unconditionally: the previous state never influences the published value;
missing video/models publish the empty list, which the overlay renders as
all-clear; alerts pushed before a caught mid-analysis error are still
published. -/
theorem anticheat_tick_publishes (env : ACEnv) :
    (∀ prev1 prev2, antiCheatTick prev1 env = antiCheatTick prev2 env) ∧
    (¬ (env.video = true ∧ env.faceModel = true ∧ env.objModel = true) →
      analyzeFrame env = [] ∧
      antiCheatOverlay (analyzeFrame env) = OverlayView.allClear) ∧
    (env.video = true → env.faceModel = true → env.objModel = true →
      ∀ fc, env.faces = Except.ok fc → fc ≠ 1 → env.persons = Except.error () →
        analyzeFrame env = ["Face count: " ++ toString fc]) := by
  refine ⟨fun _ _ => rfl, ?_, ?_⟩
  · intro hmiss
    have hb : (env.video && env.faceModel && env.objModel) = false := by
      cases hv : env.video <;> cases hf : env.faceModel <;> cases ho : env.objModel <;>
        simp_all
    have ha : analyzeFrame env = [] := by
      unfold analyzeFrame
      rw [hb]
      rfl
    exact ⟨ha, by rw [ha]; rfl⟩
  · intro hv hf ho fc hfc hne hp
    unfold analyzeFrame
    rw [hv, hf, ho, hfc, hp]
    simp [hne]

/-- C10 witness. -/
theorem anticheat_tick_publishes_witness :
    analyzeFrame ⟨false, true, true, Except.ok 1, Except.ok 1⟩ = [] ∧
    antiCheatOverlay (analyzeFrame ⟨false, true, true, Except.ok 1, Except.ok 1⟩) =
      OverlayView.allClear ∧
    analyzeFrame ⟨true, true, true, Except.ok 0, Except.error ()⟩ =
      ["Face count: " ++ toString 0] := by
  have h1 := (anticheat_tick_publishes ⟨false, true, true, Except.ok 1, Except.ok 1⟩).2.1
    (by simp)
  have h2 := (anticheat_tick_publishes ⟨true, true, true, Except.ok 0, Except.error ()⟩).2.2
    rfl rfl rfl 0 rfl (by decide) rfl
  exact ⟨h1.1, h1.2, h2⟩
